import Mathlib

set_option maxHeartbeats 1000000

/- Formal model of the AIMS mission-planning front end: the mission state
   store and its reducer, the data-access retry layer, the orbital
   mechanics utilities, and the visualization path geometry, together
   with theorems checking the specified behaviour of each. -/

namespace Aims

/-! ## Definitions -/

/-! ### Mission data model (types.ts) -/

inductive PropulsionType | chemical | ion | nuclear
deriving DecidableEq

inductive PayloadType | camera | spectrometer | probe
deriving DecidableEq

inductive TrajectoryType | hohmann | biElliptic | gravityAssist
deriving DecidableEq

inductive MissionPhase | PLANNING | LAUNCH | CRUISE | APPROACH | INTERCEPT | COMPLETE | FAILED
deriving DecidableEq

/-- Three-component vector with rational coordinates (model of THREE.Vector3). -/
abbrev Vec3Q : Type := ℚ × ℚ × ℚ

structure MissionConfig where
  launchWindow : ℚ
  propulsionType : PropulsionType
  payload : List PayloadType
  trajectoryType : Option TrajectoryType
  fuelCapacity : Option ℚ
  missionDuration : Option ℚ

structure MissionStatus where
  phase : MissionPhase
  timeToIntercept : Option String
  distanceToTarget : Option ℚ
  velocity : Option ℚ
  fuelRemaining : Option ℚ
  successProbability : Option ℚ
  missionElapsed : Option String

structure SimulationState where
  isRunning : Bool
  currentTime : ℚ
  timeAcceleration : ℚ
  elapsedTime : ℚ

structure MissionData where
  currentTime : ℚ
  atlasPosition : Vec3Q
  earthPosition : Vec3Q

structure MissionContextState where
  missionConfig : MissionConfig
  missionStatus : Option MissionStatus
  simulationState : SimulationState
  interceptorTrajectory : Option (List Vec3Q)
  missionData : Option MissionData

/-! ### Mission state store (MissionContext) -/

/-- Model of String.prototype.padStart(2, the zero digit) on a decimal numeral. -/
def pad2 (n : ℕ) : String := if n < 10 then "0" ++ toString n else toString n

/-- Helper function formatTime: seconds to HH:MM:SS. -/
def formatTime (seconds : ℕ) : String :=
  let hours := seconds / 3600
  let minutes := seconds % 3600 / 60
  let secs := seconds % 60
  pad2 hours ++ ":" ++ pad2 minutes ++ ":" ++ pad2 secs

/-- Model of Math.round on rationals (round half up). -/
def jsRound (q : ℚ) : ℚ := ⌊q + 1/2⌋

/-- The three values drawn from Math.random in the START_SIMULATION branch,
    made explicit inputs of the reducer. -/
structure StartDraws where
  timeToIntercept : ℕ
  distance : ℚ
  velocity : ℚ

inductive MissionAction
  | setMissionConfig (payload : MissionConfig)
  | startSimulation
  | pauseSimulation
  | resetSimulation
  | updateMissionStatus (payload : MissionStatus)
  | updateSimulationTime (payload : ℚ)
  | setInterceptorTrajectory (payload : List Vec3Q)
  | updateMissionData (payload : Option MissionData)

/-- The mission reducer.  Date.now() and the Math.random() draws are passed
    explicitly as `now` and `draws`. -/
def missionReducer (now : ℚ) (draws : StartDraws) (state : MissionContextState)
    (action : MissionAction) : MissionContextState :=
  match action with
  | .setMissionConfig payload => { state with missionConfig := payload }
  | .startSimulation =>
    let launchTime := state.missionConfig.launchWindow
    let currentTime := now
    let timeDiff := |launchTime - currentTime| / (1000 * 60 * 60 * 24)
    let successRate : ℚ := 75
    let successRate := if state.missionConfig.propulsionType = .nuclear then successRate + 15
      else if state.missionConfig.propulsionType = .ion then successRate + 10
      else if state.missionConfig.propulsionType = .chemical then successRate + 5
      else successRate
    let successRate := if timeDiff < 1 then successRate + 10
      else if timeDiff > 30 then successRate - 15
      else successRate
    let payloadComplexity : ℚ := state.missionConfig.payload.length
    let successRate := max 60 (min 95 (successRate - payloadComplexity * 2))
    { state with
      simulationState := { state.simulationState with
        isRunning := true, elapsedTime := 0, currentTime := now },
      missionStatus := some {
        phase := .LAUNCH,
        timeToIntercept := some (formatTime draws.timeToIntercept),
        distanceToTarget := some draws.distance,
        velocity := some draws.velocity,
        fuelRemaining := some 100,
        successProbability := some (jsRound successRate),
        missionElapsed := some "00:00:00" } }
  | .pauseSimulation =>
    { state with simulationState := { state.simulationState with isRunning := false } }
  | .resetSimulation =>
    { state with
      simulationState := { state.simulationState with
        isRunning := false, elapsedTime := 0, currentTime := now },
      missionStatus := none }
  | .updateMissionStatus payload => { state with missionStatus := some payload }
  | .updateSimulationTime payload =>
    { state with simulationState := { state.simulationState with
        currentTime := payload,
        elapsedTime := state.simulationState.elapsedTime + 1 } }
  | .setInterceptorTrajectory payload => { state with interceptorTrajectory := some payload }
  | .updateMissionData payload => { state with missionData := payload }

/-- The 1-second simulation interval callback: builds the updated MissionStatus
    from the previous one.  The two Math.random() draws are `r1` and `r2`. -/
def tickStatus (prev : MissionStatus) (elapsedSeconds : ℕ) (r1 r2 : ℚ) : MissionStatus :=
  { prev with
    missionElapsed := some (formatTime elapsedSeconds),
    velocity := some (max 0 (prev.velocity.getD 0 - r1 * 100)),
    distanceToTarget := some (max 0 (prev.distanceToTarget.getD 0 - r2 * 1000000)),
    fuelRemaining := some (max 0 (prev.fuelRemaining.getD 0 - 1/10)) }

/-! ### Spec-side formulation of the start scoring heuristic -/

/-- Propulsion bonus as stated in the spec: nuclear +15, ion +10, chemical +5. -/
def propulsionBonus : PropulsionType → ℚ
  | .nuclear => 15
  | .ion => 10
  | .chemical => 5

/-- Timing adjustment as stated in the spec: +10 when the launch window is
    less than 1 day away, -15 when more than 30 days away. -/
def timingAdjust (timeDiffDays : ℚ) : ℚ :=
  if timeDiffDays < 1 then 10 else if timeDiffDays > 30 then -15 else 0

/-- Success probability at simulation start as the spec words it: base 75,
    plus propulsion bonus, plus timing adjustment, minus 2 per payload item,
    clamped to the band 60 to 95. -/
def specStartSuccessProbability (cfg : MissionConfig) (now : ℚ) : ℚ :=
  max 60 (min 95 (75 + propulsionBonus cfg.propulsionType
    + timingAdjust (|cfg.launchWindow - now| / (1000 * 60 * 60 * 24))
    - 2 * cfg.payload.length))

/-! ### Data access layer (api.ts): retry with exponential backoff -/

/-- Failure classification of one fetch attempt: a network failure
    (a TypeError mentioning fetch) or an HTTP error with its status. -/
inductive ApiError | network | http (status : ℕ)
deriving DecidableEq

/-- Outcome of a single fetch attempt. -/
inductive FetchOutcome (T : Type) | ok (data : T) | fail (e : ApiError)

/-- RETRY_CONFIG.maxRetries. -/
def maxRetries : ℕ := 3

/-- getRetryDelay: exponential backoff delay, min(baseDelay * 2^attempt, maxDelay). -/
def getRetryDelay (attempt : ℕ) : ℕ := min (1000 * 2 ^ attempt) 10000

/-- isRetryableError: network failures, HTTP 5xx and HTTP 429 are retryable. -/
def isRetryableError : ApiError → Bool
  | .network => true
  | .http status => (decide (500 ≤ status) && decide (status < 600)) || decide (status = 429)

/-- The attempt loop of apiRequest.  `fetchRes k` is the outcome of the
    k-th fetch; `fuel` is the number of attempts still allowed after the
    current one (maxRetries - attempt).  Returns the result together with
    the list of backoff delays slept between attempts. -/
def apiRequestGo {T : Type} (fetchRes : ℕ → FetchOutcome T) :
    (attempt : ℕ) → (fuel : ℕ) → Except ApiError T × List ℕ
  | attempt, 0 =>
    match fetchRes attempt with
    | .ok d => (.ok d, [])
    | .fail e => (.error e, [])
  | attempt, fuel + 1 =>
    match fetchRes attempt with
    | .ok d => (.ok d, [])
    | .fail e =>
      if isRetryableError e then
        let rest := apiRequestGo fetchRes (attempt + 1) fuel
        (rest.1, getRetryDelay attempt :: rest.2)
      else (.error e, [])

/-- apiRequest: run the retry loop from attempt 0. -/
def apiRequest {T : Type} (fetchRes : ℕ → FetchOutcome T) : Except ApiError T × List ℕ :=
  apiRequestGo fetchRes 0 maxRetries

/-- The uniform response envelope returned by ApiClient.request. -/
structure ApiResponseEnv (T : Type) where
  success : Bool
  data : Option T
  error : Option String
  timestamp : ℚ

/-- ApiClient.request: wraps apiRequest, converts a thrown error into a
    failure envelope instead of propagating it.  The error-message
    rendering (which includes the HTTP statusText) is passed in as `msg`. -/
def requestEnvelope {T : Type} (msg : ApiError → String) (ts : ℚ)
    (fetchRes : ℕ → FetchOutcome T) : ApiResponseEnv T :=
  match (apiRequest fetchRes).1 with
  | .ok d => { success := true, data := some d, error := none, timestamp := ts }
  | .error e => { success := false, data := none, error := some (msg e), timestamp := ts }

/-- Concrete fetch sequence for the C5 witness: one retryable HTTP 500
    failure followed by successes. -/
def witnessFetch : ℕ → FetchOutcome ℕ :=
  fun k => if k = 0 then .fail (.http 500) else .ok 7

/-! ### Mission success heuristic (orbitalMechanics.ts) -/

/-- calculateSuccessProbability: base 90, minus capped distance penalty,
    minus velocity-deviation penalty, scaled by fuel fraction, clamped. -/
def calculateSuccessProbability (distance velocity fuelRemaining : ℚ)
    (propulsionType : PropulsionType) : ℚ :=
  let baseSuccess : ℚ := 90
  let baseSuccess := baseSuccess - min (distance / 1000000) 50
  let optimalVelocity : ℚ :=
    if propulsionType = .chemical then 15 else if propulsionType = .ion then 8 else 25
  let velocityDiff := |velocity - optimalVelocity|
  let baseSuccess := baseSuccess - velocityDiff * 2
  let baseSuccess := baseSuccess * (fuelRemaining / 100)
  max (min baseSuccess 95) 5

/-! ### Target-body path split (SolarSystemVisualization path split effect) -/

/-- Squared Euclidean distance (THREE.Vector3.distanceToSquared). -/
def distSq (u v : Vec3Q) : ℚ :=
  (u.1 - v.1) ^ 2 + (u.2.1 - v.2.1) ^ 2 + (u.2.2 - v.2.2) ^ 2

/-- One iteration of the split-index loop: update the best index when the
    squared distance is strictly below the running minimum. -/
def splitStep (pos : Vec3Q) (acc : ℕ × WithTop ℚ) (ip : ℕ × Vec3Q) : ℕ × WithTop ℚ :=
  if (distSq ip.2 pos : WithTop ℚ) < acc.2 then (ip.1, (distSq ip.2 pos : WithTop ℚ)) else acc

/-- The split-index loop: splitIndex starts at 0, minDist at positive infinity. -/
def splitScan (pos : Vec3Q) (points : List Vec3Q) : ℕ × WithTop ℚ :=
  points.enum.foldl (splitStep pos) (0, ⊤)

def splitIndex (points : List Vec3Q) (pos : Vec3Q) : ℕ := (splitScan pos points).1

/-- points.slice(0, Math.max(1, splitIndex)). -/
def atlasPathPast (points : List Vec3Q) (pos : Vec3Q) : List Vec3Q :=
  points.take (max 1 (splitIndex points pos))

/-- points.slice(splitIndex). -/
def atlasPathFuture (points : List Vec3Q) (pos : Vec3Q) : List Vec3Q :=
  points.drop (splitIndex points pos)

/-- Concrete sample sequence for C2: 21 collinear samples marching
    monotonically away from the start, so consecutive samples are ever
    farther along the line; the current position is sample 10. -/
def cPoints : List Vec3Q :=
  [(0, 0, 0), (1, 0, 0), (2, 0, 0), (3, 0, 0), (4, 0, 0), (5, 0, 0), (6, 0, 0),
   (7, 0, 0), (8, 0, 0), (9, 0, 0), (10, 0, 0), (11, 0, 0), (12, 0, 0),
   (13, 0, 0), (14, 0, 0), (15, 0, 0), (16, 0, 0), (17, 0, 0), (18, 0, 0),
   (19, 0, 0), (20, 0, 0)]

def cPos : Vec3Q := (10, 0, 0)

/-! ### Orbital mechanics (orbitalMechanics.ts), over the reals -/

structure OrbitalElements where
  a : ℝ
  e : ℝ
  i : ℝ
  omega : ℝ
  Omega : ℝ
  M0 : ℝ
  epoch : ℝ

/-- Convert degrees to radians. -/
noncomputable def degToRad (degrees : ℝ) : ℝ := degrees * (Real.pi / 180)

/-- Math.atan2 y x, modelled as the argument of the complex number x + y*I. -/
noncomputable def atan2 (y x : ℝ) : ℝ := Complex.arg ⟨x, y⟩

/-- Loop state of solveKeplerEquation: current eccentric anomaly estimate
    and last Newton update. -/
structure KeplerState where
  E : ℝ
  deltaE : ℝ

/-- Entry state of the loop: E = M, deltaE = 1. -/
def keplerInit (M : ℝ) : KeplerState := ⟨M, 1⟩

/-- One Newton-Raphson step on f(E) = E - e*sin(E) - M. -/
noncomputable def keplerStep (M e : ℝ) (s : KeplerState) : KeplerState :=
  let f := s.E - e * Real.sin s.E - M
  let df := 1 - e * Real.cos s.E
  let deltaE := f / df
  ⟨s.E - deltaE, deltaE⟩

/-- The default tolerance 1e-6 of solveKeplerEquation. -/
noncomputable def keplerDefaultTolerance : ℝ := 1 / 1000000

/-- The while-loop semantics of solveKeplerEquation: E is the eccentric
    anomaly of the first iterate whose update magnitude has dropped to the
    tolerance, every earlier iterate still exceeding it. -/
def solveKeplerRel (M e tolerance E : ℝ) : Prop :=
  ∃ n : ℕ,
    (∀ k, k < n → tolerance < |((keplerStep M e)^[k] (keplerInit M)).deltaE|) ∧
    |((keplerStep M e)^[n] (keplerInit M)).deltaE| ≤ tolerance ∧
    E = ((keplerStep M e)^[n] (keplerInit M)).E

/-- calculateTrueAnomaly: true anomaly from eccentric anomaly via the
    half-angle tangent identity. -/
noncomputable def calculateTrueAnomaly (E e : ℝ) : ℝ :=
  2 * atan2 (Real.sqrt (1 + e) * Real.sin (E / 2)) (Real.sqrt (1 - e) * Real.cos (E / 2))

/-- calculateOrbitalPosition: position in the orbital plane from the conic
    radius equation. -/
noncomputable def calculateOrbitalPosition (elements : OrbitalElements) (nu : ℝ) : ℝ × ℝ :=
  let r := elements.a * (1 - elements.e ^ 2) / (1 + elements.e * Real.cos nu)
  (r * Real.cos nu, r * Real.sin nu)

/-- transformToEcliptic: 3-1-3 Euler rotation from the orbital plane into
    heliocentric ecliptic coordinates. -/
noncomputable def transformToEcliptic (x y : ℝ) (elements : OrbitalElements) : ℝ × ℝ × ℝ :=
  let i := degToRad elements.i
  let omega := degToRad elements.omega
  let Omega := degToRad elements.Omega
  let cosOmega := Real.cos omega
  let sinOmega := Real.sin omega
  let cosI := Real.cos i
  let sinI := Real.sin i
  let cosCapOmega := Real.cos Omega
  let sinCapOmega := Real.sin Omega
  let X := (cosOmega * cosCapOmega - sinOmega * sinCapOmega * cosI) * x +
    (-sinOmega * cosCapOmega - cosOmega * sinCapOmega * cosI) * y
  let Y := (cosOmega * sinCapOmega + sinOmega * cosCapOmega * cosI) * x +
    (-sinOmega * sinCapOmega + cosOmega * cosCapOmega * cosI) * y
  let Z := (sinOmega * sinI) * x + (cosOmega * sinI) * y
  (X, Y, Z)

/-- createOrbitPath: numPoints+1 samples of the conic at uniformly spaced
    true anomalies over a full turn, in the orbital plane (y = 0 in scene
    coordinates). -/
noncomputable def createOrbitPath (a e : ℝ) (numPoints : ℕ) : List (ℝ × ℝ × ℝ) :=
  (List.range (numPoints + 1)).map fun (idx : ℕ) =>
    let nu := ((idx : ℝ) / (numPoints : ℝ)) * (2 * Real.pi)
    let r := a * (1 - e ^ 2) / (1 + e * Real.cos nu)
    (r * Real.cos nu, 0, r * Real.sin nu)

/-! ### Parabolic target-body path (SolarSystemVisualization), over the reals -/

noncomputable def sceneScaleAU : ℝ := 30

noncomputable def sceneVerticalScale : ℝ := 6

/-- Map heliocentric AU coordinates to scene units, with the out-of-plane
    axis exaggerated. -/
noncomputable def mapToScene (x y z : ℝ) : ℝ × ℝ × ℝ :=
  (x * sceneScaleAU, z * sceneScaleAU * sceneVerticalScale, -(y * sceneScaleAU))

/-- Semi-latus rectum p = 2*q of the parabola, with perihelion q = 0.3 AU. -/
noncomputable def atlasSemiLatus : ℝ := 2 * (3 / 10)

noncomputable def atlasEpsilon : ℝ := 1 / 100

def atlasSteps : ℕ := 2000

noncomputable def atlasMaxRAU : ℝ := 300

/-- True anomaly at sample s, spanning from just inside -pi to just inside
    +pi. -/
noncomputable def atlasNu (s : ℕ) : ℝ :=
  (-Real.pi + atlasEpsilon) + ((s : ℝ) / (atlasSteps : ℝ)) *
    ((Real.pi - atlasEpsilon) - (-Real.pi + atlasEpsilon))

/-- The capped orbital-plane radius at sample s: any radius beyond 300 AU
    is replaced by the cap.  (The Number.isFinite guard of the source
    cannot fire in the real-number model, where the conic radius is a
    total real.) -/
noncomputable def atlasRadius (s : ℕ) : ℝ :=
  let r := atlasSemiLatus / (1 + Real.cos (atlasNu s))
  if atlasMaxRAU < r then atlasMaxRAU else r

/-- Rotate an orbital-plane point into the scene frame: the same 3-1-3
    rotation as transformToEcliptic (angles in degrees) followed by
    mapToScene. -/
noncomputable def atlasToScene (iDeg omegaDeg OmegaDeg xOrb yOrb : ℝ) : ℝ × ℝ × ℝ :=
  let i := iDeg * Real.pi / 180
  let omega := omegaDeg * Real.pi / 180
  let Omega := OmegaDeg * Real.pi / 180
  let x := (Real.cos Omega * Real.cos omega - Real.sin Omega * Real.sin omega * Real.cos i) * xOrb +
    (-Real.cos Omega * Real.sin omega - Real.sin Omega * Real.cos omega * Real.cos i) * yOrb
  let y := (Real.sin Omega * Real.cos omega + Real.cos Omega * Real.sin omega * Real.cos i) * xOrb +
    (-Real.sin Omega * Real.sin omega + Real.cos Omega * Real.cos omega * Real.cos i) * yOrb
  let z := (Real.sin i * Real.sin omega) * xOrb + (Real.sin i * Real.cos omega) * yOrb
  mapToScene x y z

/-- Sample s of the parabolic path. -/
noncomputable def atlasPathPoint (iDeg omegaDeg OmegaDeg : ℝ) (s : ℕ) : ℝ × ℝ × ℝ :=
  atlasToScene iDeg omegaDeg OmegaDeg (atlasRadius s * Real.cos (atlasNu s))
    (atlasRadius s * Real.sin (atlasNu s))

/-- The full 2001-point parabolic path. -/
noncomputable def atlasParabolicPath (iDeg omegaDeg OmegaDeg : ℝ) : List (ℝ × ℝ × ℝ) :=
  (List.range (atlasSteps + 1)).map (atlasPathPoint iDeg omegaDeg OmegaDeg)

/-! ## Lemmas and theorems -/

/-! ### Rounding and clamping -/

lemma jsRound_intCast (z : ℤ) : jsRound (z : ℚ) = (z : ℚ) := by
  have h : ⌊(z : ℚ) + 1/2⌋ = z := by
    rw [add_comm, Int.floor_add_int]
    norm_num
  unfold jsRound
  rw [h]

lemma clamp_intCast (x : ℤ) :
    max 60 (min 95 ((x : ℚ))) = ((max 60 (min 95 x) : ℤ) : ℚ) := by
  push_cast
  rfl

lemma jsRound_clamp (b t : ℤ) (k : ℕ) :
    jsRound (max 60 (min 95 (75 + (b : ℚ) + (t : ℚ) - (k : ℚ) * 2)))
      = max 60 (min 95 (75 + (b : ℚ) + (t : ℚ) - (k : ℚ) * 2)) := by
  have h : (75 + (b : ℚ) + (t : ℚ) - (k : ℚ) * 2) = ((75 + b + t - (k : ℤ) * 2 : ℤ) : ℚ) := by
    push_cast
    ring
  rw [h, clamp_intCast, jsRound_intCast]

/-! ### The Start transition (C1) -/

/-- C1: the Start transition, from any prior state, yields a running
    simulation with elapsed time 0 and synthesizes a MissionStatus with
    phase LAUNCH, fuelRemaining 100, missionElapsed 00:00:00, and
    successProbability given by the spec heuristic: base 75 plus the
    propulsion bonus, plus the timing adjustment, minus 2 per payload
    item, clamped to the band 60 to 95. -/
theorem startSimulation_spec (now : ℚ) (draws : StartDraws) (s : MissionContextState) :
    (missionReducer now draws s .startSimulation).simulationState.isRunning = true ∧
    (missionReducer now draws s .startSimulation).simulationState.elapsedTime = 0 ∧
    ∃ st, (missionReducer now draws s .startSimulation).missionStatus = some st ∧
      st.phase = .LAUNCH ∧
      st.fuelRemaining = some 100 ∧
      st.missionElapsed = some "00:00:00" ∧
      st.successProbability = some (specStartSuccessProbability s.missionConfig now) := by
  refine ⟨rfl, rfl, _, rfl, rfl, rfl, rfl, ?_⟩
  unfold specStartSuccessProbability
  set td := |s.missionConfig.launchWindow - now| / (1000 * 60 * 60 * 24) with htd
  have hb : ∃ b : ℤ, (b : ℚ) = propulsionBonus s.missionConfig.propulsionType := by
    cases s.missionConfig.propulsionType
    exacts [⟨5, by norm_num [propulsionBonus]⟩, ⟨10, by norm_num [propulsionBonus]⟩,
      ⟨15, by norm_num [propulsionBonus]⟩]
  obtain ⟨b, hb⟩ := hb
  have ht : ∃ t : ℤ, (t : ℚ) = timingAdjust td := by
    unfold timingAdjust
    split_ifs
    exacts [⟨10, by norm_num⟩, ⟨-15, by norm_num⟩, ⟨0, by norm_num⟩]
  obtain ⟨t, ht⟩ := ht
  have h1 : (if s.missionConfig.propulsionType = PropulsionType.nuclear then (75 : ℚ) + 15
      else if s.missionConfig.propulsionType = PropulsionType.ion then 75 + 10
      else if s.missionConfig.propulsionType = PropulsionType.chemical then 75 + 5
      else 75) = 75 + propulsionBonus s.missionConfig.propulsionType := by
    cases s.missionConfig.propulsionType <;> simp [propulsionBonus]
  have h2 : ∀ X : ℚ, (if td < 1 then X + 10 else if td > 30 then X - 15 else X)
      = X + timingAdjust td := by
    intro X
    unfold timingAdjust
    split_ifs <;> ring
  simp only [missionReducer, ← htd, h1, h2, Option.some.injEq]
  rw [← hb, ← ht]
  have hfinal : (75 + (b : ℚ) + (t : ℚ)
        - (s.missionConfig.payload.length : ℚ) * 2)
      = (75 + (b : ℚ) + (t : ℚ) - 2 * (s.missionConfig.payload.length : ℚ)) := by ring
  rw [jsRound_clamp, hfinal]

/-! ### The retry layer (C5) -/

lemma apiRequestGo_delays_length {T : Type} (fetchRes : ℕ → FetchOutcome T) :
    ∀ fuel attempt, (apiRequestGo fetchRes attempt fuel).2.length ≤ fuel := by
  intro fuel
  induction fuel with
  | zero =>
    intro attempt
    unfold apiRequestGo
    cases fetchRes attempt <;> simp
  | succ n ih =>
    intro attempt
    unfold apiRequestGo
    cases fetchRes attempt with
    | ok d => simp
    | fail e =>
      by_cases hr : isRetryableError e
      · simp only [hr, if_true, List.length_cons]
        exact Nat.succ_le_succ (ih (attempt + 1))
      · simp [hr]

lemma apiRequestGo_delays_spec {T : Type} (fetchRes : ℕ → FetchOutcome T) :
    ∀ fuel attempt i, i < (apiRequestGo fetchRes attempt fuel).2.length →
      (apiRequestGo fetchRes attempt fuel).2.getD i 0 = getRetryDelay (attempt + i) ∧
      ∃ e, fetchRes (attempt + i) = .fail e ∧ isRetryableError e = true := by
  intro fuel
  induction fuel with
  | zero =>
    intro attempt i hi
    exfalso
    have := apiRequestGo_delays_length fetchRes 0 attempt
    omega
  | succ n ih =>
    intro attempt i hi
    revert hi
    unfold apiRequestGo
    cases hfr : fetchRes attempt with
    | ok d => intro hi; simp at hi
    | fail e =>
      by_cases hr : isRetryableError e
      · simp only [hr, if_true, List.length_cons]
        intro hi
        cases i with
        | zero => exact ⟨by simp, e, by simpa using hfr, hr⟩
        | succ j =>
          have hj : j < (apiRequestGo fetchRes (attempt + 1) n).2.length :=
            Nat.lt_of_succ_lt_succ hi
          obtain ⟨hd, e2, he2, hre2⟩ := ih (attempt + 1) j hj
          refine ⟨by simpa [Nat.add_assoc, Nat.add_comm 1 j] using hd, e2, ?_, hre2⟩
          have : attempt + 1 + j = attempt + (j + 1) := by omega
          rwa [this] at he2
      · intro hi
        simp [hr] at hi

lemma apiRequestGo_immediate {T : Type} (fetchRes : ℕ → FetchOutcome T)
    (fuel attempt : ℕ) (e : ApiError) (hf : fetchRes attempt = .fail e)
    (hr : isRetryableError e = false) :
    apiRequestGo fetchRes attempt fuel = (.error e, []) := by
  cases fuel with
  | zero => unfold apiRequestGo; rw [hf]
  | succ n => unfold apiRequestGo; rw [hf]; simp [hr]

/-- C5: the data-access client retries only on network failures, HTTP 5xx
    or HTTP 429, sleeps min(1000*2^attempt, 10000) ms before each retry,
    performs at most 3 retries, fails immediately on any other failure,
    and in every failure case the envelope has success = false and carries
    an error message rather than an exception. -/
theorem apiRequest_retry_spec {T : Type} (fetchRes : ℕ → FetchOutcome T) :
    (apiRequest fetchRes).2.length ≤ 3 ∧
    (∀ i, i < (apiRequest fetchRes).2.length →
      (apiRequest fetchRes).2.getD i 0 = min (1000 * 2 ^ i) 10000 ∧
      ∃ e, fetchRes i = .fail e ∧
        (e = .network ∨ ∃ s, e = .http s ∧ ((500 ≤ s ∧ s < 600) ∨ s = 429))) ∧
    (∀ e, fetchRes 0 = .fail e → isRetryableError e = false →
      apiRequest fetchRes = (.error e, [])) ∧
    (∀ (msg : ApiError → String) (ts : ℚ) (e : ApiError),
      (apiRequest fetchRes).1 = .error e →
      (requestEnvelope msg ts fetchRes).success = false ∧
      (requestEnvelope msg ts fetchRes).error = some (msg e)) := by
  refine ⟨apiRequestGo_delays_length fetchRes maxRetries 0, ?_, ?_, ?_⟩
  · intro i hi
    obtain ⟨hd, e, he, hre⟩ := apiRequestGo_delays_spec fetchRes maxRetries 0 i hi
    refine ⟨by simpa [getRetryDelay] using hd, e, by simpa using he, ?_⟩
    cases e with
    | network => exact Or.inl rfl
    | http s =>
      refine Or.inr ⟨s, rfl, ?_⟩
      simp only [isRetryableError, Bool.or_eq_true, Bool.and_eq_true, decide_eq_true_eq] at hre
      tauto
  · intro e hf hr
    exact apiRequestGo_immediate fetchRes maxRetries 0 e hf hr
  · intro msg ts e herr
    unfold requestEnvelope
    rw [herr]
    exact ⟨rfl, rfl⟩

/-- Witness for C5 at a concrete fetch sequence: the single recorded
    backoff delay is 1000 ms and corresponds to a retryable HTTP 500. -/
theorem apiRequest_retry_spec_witness :
    (0 < (apiRequest witnessFetch).2.length) ∧
    ((apiRequest witnessFetch).2.getD 0 0 = min (1000 * 2 ^ 0) 10000 ∧
      ∃ e, witnessFetch 0 = .fail e ∧
        (e = .network ∨ ∃ s, e = .http s ∧ ((500 ≤ s ∧ s < 600) ∨ s = 429))) :=
  ⟨by decide, (apiRequest_retry_spec witnessFetch).2.1 0 (by decide)⟩

/-! ### The Pause transition (C6) -/

/-- C6: the Pause transition sets running to false and leaves every other
    field of the state unchanged. -/
theorem pauseSimulation_frame (now : ℚ) (draws : StartDraws) (s : MissionContextState) :
    (missionReducer now draws s .pauseSimulation).simulationState.isRunning = false ∧
    (missionReducer now draws s .pauseSimulation).simulationState.elapsedTime
      = s.simulationState.elapsedTime ∧
    (missionReducer now draws s .pauseSimulation).simulationState.currentTime
      = s.simulationState.currentTime ∧
    (missionReducer now draws s .pauseSimulation).simulationState.timeAcceleration
      = s.simulationState.timeAcceleration ∧
    (missionReducer now draws s .pauseSimulation).missionConfig = s.missionConfig ∧
    (missionReducer now draws s .pauseSimulation).missionStatus = s.missionStatus ∧
    (missionReducer now draws s .pauseSimulation).interceptorTrajectory
      = s.interceptorTrajectory ∧
    (missionReducer now draws s .pauseSimulation).missionData = s.missionData :=
  ⟨rfl, rfl, rfl, rfl, rfl, rfl, rfl, rfl⟩

/-! ### The success heuristic (C3) -/

lemma clamp595_of_nonpos {x : ℚ} (hx : x ≤ 0) : max (min x 95) 5 = 5 := by
  have h1 : min x 95 ≤ 5 := le_trans (min_le_left x 95) (le_trans hx (by norm_num))
  exact max_eq_right h1

lemma clampDistMono (A1 A2 C f : ℚ) (hf : 0 ≤ f) (hA : A1 ≤ A2) :
    max (min ((90 - A2 - C) * (f / 100)) 95) 5
      ≤ max (min ((90 - A1 - C) * (f / 100)) 95) 5 := by
  have hff : (0 : ℚ) ≤ f / 100 := by positivity
  gcongr

lemma clampFuelMono (B f1 f2 : ℚ) (hf1 : 0 ≤ f1) (h12 : f1 ≤ f2) :
    max (min (B * (f1 / 100)) 95) 5 ≤ max (min (B * (f2 / 100)) 95) 5 := by
  have hf2 : (0 : ℚ) ≤ f2 := hf1.trans h12
  rcases le_or_lt 0 B with hB | hB
  · gcongr
  · have h1 : B * (f1 / 100) ≤ 0 :=
      mul_nonpos_of_nonpos_of_nonneg hB.le (by positivity)
    have h2 : B * (f2 / 100) ≤ 0 :=
      mul_nonpos_of_nonpos_of_nonneg hB.le (by positivity)
    rw [clamp595_of_nonpos h1, clamp595_of_nonpos h2]

/-- C3 counterexample: with a negative fuelRemaining the result is not
    monotone: it increases when distance grows from 0 to 50000000, and it
    decreases when fuelRemaining grows from -100 to -50. -/
theorem calculateSuccessProbability_mono_counterexample :
    calculateSuccessProbability 0 100 (-50) PropulsionType.chemical
      < calculateSuccessProbability 50000000 100 (-50) PropulsionType.chemical ∧
    calculateSuccessProbability 0 100 (-50) PropulsionType.chemical
      < calculateSuccessProbability 0 100 (-100) PropulsionType.chemical := by
  have h85 : |(100 : ℚ) - 15| = 85 := by
    rw [abs_of_nonneg (by norm_num : (0 : ℚ) ≤ 100 - 15)]
    norm_num
  constructor <;>
    · simp only [calculateSuccessProbability, reduceIte, h85]
      norm_num [min_def, max_def]

/-- C3 (amended): the result always lies in the band 5 to 95, and for
    non-negative fuelRemaining it is monotonically non-increasing in
    distance and monotonically non-decreasing in fuelRemaining. -/
theorem calculateSuccessProbability_spec :
    (∀ d v f p, 5 ≤ calculateSuccessProbability d v f p ∧
      calculateSuccessProbability d v f p ≤ 95) ∧
    (∀ d1 d2 v f p, 0 ≤ f → d1 ≤ d2 →
      calculateSuccessProbability d2 v f p ≤ calculateSuccessProbability d1 v f p) ∧
    (∀ d v f1 f2 p, 0 ≤ f1 → f1 ≤ f2 →
      calculateSuccessProbability d v f1 p ≤ calculateSuccessProbability d v f2 p) := by
  refine ⟨?_, ?_, ?_⟩
  · intro d v f p
    simp only [calculateSuccessProbability]
    exact ⟨le_max_right _ 5, max_le (min_le_right _ 95) (by norm_num)⟩
  · intro d1 d2 v f p hf hd
    simp only [calculateSuccessProbability]
    exact clampDistMono _ _ _ _ hf (by gcongr)
  · intro d v f1 f2 p hf1 hf12
    simp only [calculateSuccessProbability]
    exact clampFuelMono _ _ _ hf1 hf12

/-- Witness for the amended C3 at concrete inputs with non-negative fuel. -/
theorem calculateSuccessProbability_spec_witness :
    calculateSuccessProbability 2000000 10 100 PropulsionType.chemical
      ≤ calculateSuccessProbability 1000000 10 100 PropulsionType.chemical ∧
    calculateSuccessProbability 0 10 50 PropulsionType.ion
      ≤ calculateSuccessProbability 0 10 80 PropulsionType.ion :=
  ⟨calculateSuccessProbability_spec.2.1 1000000 2000000 10 100 PropulsionType.chemical
      (by norm_num) (by norm_num),
    calculateSuccessProbability_spec.2.2 0 10 50 80 PropulsionType.ion
      (by norm_num) (by norm_num)⟩

/-! ### The telemetry tick (C10) -/

/-- C10: every telemetry tick keeps velocity, distanceToTarget and
    fuelRemaining non-negative, for any prior MissionStatus and any
    random decrements. -/
theorem tickStatus_nonneg (prev : MissionStatus) (elapsedSeconds : ℕ) (r1 r2 : ℚ) :
    ∃ v d f,
      (tickStatus prev elapsedSeconds r1 r2).velocity = some v ∧ 0 ≤ v ∧
      (tickStatus prev elapsedSeconds r1 r2).distanceToTarget = some d ∧ 0 ≤ d ∧
      (tickStatus prev elapsedSeconds r1 r2).fuelRemaining = some f ∧ 0 ≤ f :=
  ⟨_, _, _, rfl, le_max_left 0 _, rfl, le_max_left 0 _, rfl, le_max_left 0 _⟩

/-! ### The path split (C2) -/

lemma splitScan_aux (pos : Vec3Q) (l : List (ℕ × Vec3Q)) :
    ∀ acc : ℕ × WithTop ℚ,
      (∀ ip ∈ l, (l.foldl (splitStep pos) acc).2 ≤ (distSq ip.2 pos : WithTop ℚ)) ∧
      (l.foldl (splitStep pos) acc).2 ≤ acc.2 ∧
      (l.foldl (splitStep pos) acc = acc ∨
        ∃ ip ∈ l, l.foldl (splitStep pos) acc = (ip.1, (distSq ip.2 pos : WithTop ℚ))) := by
  induction l with
  | nil => exact fun acc => ⟨by simp, le_refl _, Or.inl rfl⟩
  | cons hd tl ih =>
    intro acc
    simp only [List.foldl_cons]
    by_cases hc : (distSq hd.2 pos : WithTop ℚ) < acc.2
    · have hs : splitStep pos acc hd = (hd.1, (distSq hd.2 pos : WithTop ℚ)) := by
        unfold splitStep
        rw [if_pos hc]
      rw [hs]
      obtain ⟨iha, ihb, ihc⟩ := ih (hd.1, (distSq hd.2 pos : WithTop ℚ))
      refine ⟨?_, le_trans ihb (le_of_lt hc), ?_⟩
      · intro ip hip
        rcases List.mem_cons.mp hip with h | h
        · rw [h]
          exact ihb
        · exact iha ip h
      · rcases ihc with h | ⟨ip, hip, h⟩
        · exact Or.inr ⟨hd, List.mem_cons_self hd tl, h⟩
        · exact Or.inr ⟨ip, List.mem_cons_of_mem hd hip, h⟩
    · have hs : splitStep pos acc hd = acc := by
        unfold splitStep
        rw [if_neg hc]
      rw [hs]
      obtain ⟨iha, ihb, ihc⟩ := ih acc
      refine ⟨?_, ihb, ?_⟩
      · intro ip hip
        rcases List.mem_cons.mp hip with h | h
        · rw [h]
          exact le_trans ihb (le_of_not_lt hc)
        · exact iha ip h
      · rcases ihc with h | ⟨ip, hip, h⟩
        · exact Or.inl h
        · exact Or.inr ⟨ip, List.mem_cons_of_mem hd hip, h⟩

/-- The split index is in range and attains the minimal squared distance. -/
lemma splitIndex_spec (points : List Vec3Q) (pos : Vec3Q) (hne : points ≠ []) :
    splitIndex points pos < points.length ∧
    ∀ j, j < points.length →
      distSq (points.getD (splitIndex points pos) (0, 0, 0)) pos
        ≤ distSq (points.getD j (0, 0, 0)) pos := by
  obtain ⟨ha, hb, hc⟩ := splitScan_aux pos points.enum (0, ⊤)
  rcases hc with h | ⟨ip, hip, h⟩
  · exfalso
    obtain ⟨p0, tl, rfl⟩ : ∃ p0 tl, points = p0 :: tl := by
      cases points with
      | nil => exact absurd rfl hne
      | cons a b => exact ⟨a, b, rfl⟩
    have hmem : (0, p0) ∈ (p0 :: tl).enum := by
      rw [List.mk_mem_enum_iff_getElem?]
      simp
    have htop := ha (0, p0) hmem
    rw [h] at htop
    exact absurd htop (by simp)
  · have hmem := List.mem_enum_iff_getElem?.mp hip
    obtain ⟨hlt, hget⟩ := List.getElem?_eq_some_iff.mp hmem
    have hsi : splitIndex points pos = ip.1 := by
      unfold splitIndex splitScan
      rw [h]
    have hgetD : points.getD ip.1 (0, 0, 0) = ip.2 := by
      rw [List.getD_eq_getElem?_getD, hmem]
      rfl
    refine ⟨by rw [hsi]; exact hlt, ?_⟩
    intro j hj
    have hmemj : (j, points.getD j (0, 0, 0)) ∈ points.enum := by
      rw [List.mk_mem_enum_iff_getElem?, List.getD_eq_getElem?_getD,
        List.getElem?_eq_getElem hj]
      rfl
    have hle := ha (j, points.getD j (0, 0, 0)) hmemj
    rw [h] at hle
    have hle2 : distSq ip.2 pos ≤ distSq (points.getD j (0, 0, 0)) pos := by
      simp only at hle
      exact_mod_cast hle
    rw [hsi, hgetD]
    exact hle2

/-- If one index is the unique strict minimizer of the squared distance,
    the split-index loop returns it. -/
lemma splitIndex_eq_of_strictMin (points : List Vec3Q) (pos : Vec3Q) (m : ℕ)
    (hm : m < points.length)
    (hmin : ∀ j, j < points.length → j ≠ m →
      distSq (points.getD m (0, 0, 0)) pos < distSq (points.getD j (0, 0, 0)) pos) :
    splitIndex points pos = m := by
  have hne : points ≠ [] := by
    intro hnil
    rw [hnil] at hm
    exact absurd hm (by simp)
  obtain ⟨hlt, hminat⟩ := splitIndex_spec points pos hne
  by_contra hne2
  have h1 := hmin (splitIndex points pos) hlt hne2
  have h2 := hminat m hm
  exact absurd (lt_of_le_of_lt h2 h1) (lt_irrefl _)

lemma cPoints_length : cPoints.length = 21 := by simp [cPoints]

lemma cPoints_strictMin : ∀ j, j < cPoints.length → j ≠ 10 →
    distSq (cPoints.getD 10 (0, 0, 0)) cPos < distSq (cPoints.getD j (0, 0, 0)) cPos := by
  intro j hj hne
  rw [cPoints_length] at hj
  interval_cases j <;> simp_all <;> norm_num [cPoints, cPos, distSq]

/-- C2 counterexample: on the concrete scenario (current position equal to
    sample 10 of a monotonically distancing sequence) the past segment has
    length 10, not the claimed 11; the future segment does begin at the
    split index 10. -/
theorem pathSplit_counterexample :
    (atlasPathPast cPoints cPos).length ≠ 11 ∧
    (atlasPathPast cPoints cPos).length = 10 ∧
    (atlasPathFuture cPoints cPos).head? = some (10, 0, 0) := by
  have hsi : splitIndex cPoints cPos = 10 :=
    splitIndex_eq_of_strictMin cPoints cPos 10 (by rw [cPoints_length]; norm_num)
      cPoints_strictMin
  have hlen : (atlasPathPast cPoints cPos).length = 10 := by
    unfold atlasPathPast
    rw [hsi]
    simp [cPoints]
  refine ⟨by rw [hlen]; norm_num, hlen, ?_⟩
  unfold atlasPathFuture
  rw [hsi]
  simp [cPoints]

/-- C2 (amended): for every sample sequence and current position such that
    index 10 is the strict minimizer of the squared distance to the current
    position (as with a monotonically distancing sequence whose sample 10
    is the current position), the split yields a past segment of length 10
    (indices 0 through 9) and a future segment beginning at index 10. -/
theorem pathSplit_at_minTen (points : List Vec3Q) (pos : Vec3Q)
    (h10 : 10 < points.length)
    (hmin : ∀ j, j < points.length → j ≠ 10 →
      distSq (points.getD 10 (0, 0, 0)) pos < distSq (points.getD j (0, 0, 0)) pos) :
    (atlasPathPast points pos).length = 10 ∧
    atlasPathFuture points pos = points.drop 10 ∧
    (atlasPathFuture points pos).head? = points[10]? := by
  have hsi := splitIndex_eq_of_strictMin points pos 10 h10 hmin
  refine ⟨?_, ?_, ?_⟩
  · unfold atlasPathPast
    rw [hsi]
    simp only [List.length_take]
    omega
  · unfold atlasPathFuture
    rw [hsi]
  · unfold atlasPathFuture
    rw [hsi, List.head?_drop]

/-- Witness for the amended C2 at the concrete 21-sample sequence. -/
theorem pathSplit_at_minTen_witness :
    (atlasPathPast cPoints cPos).length = 10 ∧
    atlasPathFuture cPoints cPos = cPoints.drop 10 ∧
    (atlasPathFuture cPoints cPos).head? = cPoints[10]? :=
  pathSplit_at_minTen cPoints cPos (by rw [cPoints_length]; norm_num) cPoints_strictMin

/-! ### The circular-orbit composition (C7) -/

lemma keplerStep_zero (M : ℝ) (s : KeplerState) : keplerStep M 0 s = ⟨M, s.E - M⟩ := by
  simp only [keplerStep, KeplerState.mk.injEq, zero_mul, sub_zero, div_one, and_true]
  ring

lemma kepler_iterate_zero (M : ℝ) : ∀ n, (keplerStep M 0)^[n + 1] (keplerInit M) = ⟨M, 0⟩ := by
  intro n
  induction n with
  | zero =>
    rw [zero_add, Function.iterate_one, keplerStep_zero]
    unfold keplerInit
    simp
  | succ k ih =>
    rw [Function.iterate_succ_apply', ih, keplerStep_zero]
    simp

/-- At eccentricity 0 the Newton loop terminates on its second test,
    returning E = M. -/
lemma solveKeplerRel_zero (M tol : ℝ) (htol0 : 0 ≤ tol) (htol1 : tol < 1) :
    solveKeplerRel M 0 tol M := by
  refine ⟨1, ?_, ?_, ?_⟩
  · intro k hk
    have hk0 : k = 0 := by omega
    subst hk0
    simpa [keplerInit] using htol1
  · rw [show (1 : ℕ) = 0 + 1 from rfl, kepler_iterate_zero]
    simpa using htol0
  · rw [show (1 : ℕ) = 0 + 1 from rfl, kepler_iterate_zero]

/-- At eccentricity 0 the loop result is unique: it must be M. -/
lemma solveKeplerRel_zero_unique (M tol E : ℝ) (htol1 : tol < 1)
    (h : solveKeplerRel M 0 tol E) : E = M := by
  obtain ⟨n, hprev, hdone, hE⟩ := h
  cases n with
  | zero =>
    exfalso
    simp only [Function.iterate_zero_apply, keplerInit, abs_one] at hdone
    linarith
  | succ k =>
    rw [kepler_iterate_zero] at hE
    exact hE

/-- The 3-1-3 rotation of transformToEcliptic preserves the squared norm. -/
lemma transformToEcliptic_normSq (x y : ℝ) (el : OrbitalElements) :
    (transformToEcliptic x y el).1 ^ 2 + (transformToEcliptic x y el).2.1 ^ 2 +
      (transformToEcliptic x y el).2.2 ^ 2 = x ^ 2 + y ^ 2 := by
  simp only [transformToEcliptic]
  set cw := Real.cos (degToRad el.omega) with hcw
  set sw := Real.sin (degToRad el.omega) with hsw
  set cI := Real.cos (degToRad el.i) with hcI
  set sI := Real.sin (degToRad el.i) with hsI
  set cO := Real.cos (degToRad el.Omega) with hcO
  set sO := Real.sin (degToRad el.Omega) with hsO
  have h1 : cO ^ 2 + sO ^ 2 = 1 := Real.cos_sq_add_sin_sq _
  have h2 : cI ^ 2 + sI ^ 2 = 1 := Real.cos_sq_add_sin_sq _
  have h3 : cw ^ 2 + sw ^ 2 = 1 := Real.cos_sq_add_sin_sq _
  linear_combination
    (x ^ 2 * (cw ^ 2 + sw ^ 2 * cI ^ 2) + y ^ 2 * (sw ^ 2 + cw ^ 2 * cI ^ 2)
      + 2 * x * y * cw * sw * (cI ^ 2 - 1)) * h1 +
    (x ^ 2 * sw ^ 2 + y ^ 2 * cw ^ 2 + 2 * x * y * sw * cw) * h2 +
    (x ^ 2 + y ^ 2) * h3

/-- At e = 0 the true anomaly agrees with the eccentric anomaly up to a
    full turn: same cosine and sine. -/
lemma trueAnomaly_zero (E : ℝ) :
    Real.cos (calculateTrueAnomaly E 0) = Real.cos E ∧
    Real.sin (calculateTrueAnomaly E 0) = Real.sin E := by
  unfold calculateTrueAnomaly atan2
  simp only [add_zero, sub_zero, Real.sqrt_one, one_mul]
  set z : ℂ := ⟨Real.cos (E / 2), Real.sin (E / 2)⟩ with hz
  have hone : Real.cos (E / 2) ^ 2 + Real.sin (E / 2) ^ 2 = 1 := Real.cos_sq_add_sin_sq _
  have habs : Complex.abs z = 1 := by
    rw [Complex.abs_apply, Complex.normSq_mk]
    rw [show Real.cos (E / 2) * Real.cos (E / 2) + Real.sin (E / 2) * Real.sin (E / 2)
      = 1 by nlinarith [hone]]
    exact Real.sqrt_one
  have hz0 : z ≠ 0 := by
    intro h
    rw [h] at habs
    simp at habs
  have hcos : Real.cos (Complex.arg z) = Real.cos (E / 2) := by
    rw [Complex.cos_arg hz0, habs]
    simp [hz]
  have hsin : Real.sin (Complex.arg z) = Real.sin (E / 2) := by
    rw [Complex.sin_arg, habs]
    simp [hz]
  constructor
  · rw [Real.cos_two_mul, hcos, ← Real.cos_two_mul]
    congr 1
    ring
  · rw [Real.sin_two_mul, hsin, hcos, ← Real.sin_two_mul]
    congr 1
    ring

/-- C7: for a circular orbit (e = 0) with non-negative semi-major axis a,
    composing the Kepler solve, the true-anomaly conversion, the orbital
    plane position and the ecliptic transform places the body at distance
    exactly a from the origin, for every mean anomaly. -/
theorem circularOrbit_radius (el : OrbitalElements) (M E : ℝ)
    (he : el.e = 0) (ha : 0 ≤ el.a)
    (hE : solveKeplerRel M el.e keplerDefaultTolerance E) :
    Real.sqrt
      ((transformToEcliptic (calculateOrbitalPosition el (calculateTrueAnomaly E el.e)).1
          (calculateOrbitalPosition el (calculateTrueAnomaly E el.e)).2 el).1 ^ 2 +
        (transformToEcliptic (calculateOrbitalPosition el (calculateTrueAnomaly E el.e)).1
          (calculateOrbitalPosition el (calculateTrueAnomaly E el.e)).2 el).2.1 ^ 2 +
        (transformToEcliptic (calculateOrbitalPosition el (calculateTrueAnomaly E el.e)).1
          (calculateOrbitalPosition el (calculateTrueAnomaly E el.e)).2 el).2.2 ^ 2)
      = el.a := by
  rw [he] at hE ⊢
  have hEM : E = M :=
    solveKeplerRel_zero_unique M keplerDefaultTolerance E
      (by norm_num [keplerDefaultTolerance]) hE
  obtain ⟨hc, hs⟩ := trueAnomaly_zero E
  have hpos : calculateOrbitalPosition el (calculateTrueAnomaly E 0)
      = (el.a * Real.cos (calculateTrueAnomaly E 0),
         el.a * Real.sin (calculateTrueAnomaly E 0)) := by
    simp only [calculateOrbitalPosition, he, Prod.mk.injEq]
    norm_num
  rw [transformToEcliptic_normSq, hpos]
  have hsq : (el.a * Real.cos (calculateTrueAnomaly E 0)) ^ 2
      + (el.a * Real.sin (calculateTrueAnomaly E 0)) ^ 2 = el.a ^ 2 := by
    have h := Real.cos_sq_add_sin_sq (calculateTrueAnomaly E 0)
    nlinarith [h]
  rw [hsq]
  exact Real.sqrt_sq ha

/-- Witness for C7 at a concrete circular orbit (a = 1, all angles zero,
    M = 0), the Kepler hypothesis discharged by the terminating run. -/
theorem circularOrbit_radius_witness :
    Real.sqrt
      ((transformToEcliptic
          (calculateOrbitalPosition ⟨1, 0, 0, 0, 0, 0, 0⟩
            (calculateTrueAnomaly 0 (OrbitalElements.mk 1 0 0 0 0 0 0).e)).1
          (calculateOrbitalPosition ⟨1, 0, 0, 0, 0, 0, 0⟩
            (calculateTrueAnomaly 0 (OrbitalElements.mk 1 0 0 0 0 0 0).e)).2
          ⟨1, 0, 0, 0, 0, 0, 0⟩).1 ^ 2 +
        (transformToEcliptic
          (calculateOrbitalPosition ⟨1, 0, 0, 0, 0, 0, 0⟩
            (calculateTrueAnomaly 0 (OrbitalElements.mk 1 0 0 0 0 0 0).e)).1
          (calculateOrbitalPosition ⟨1, 0, 0, 0, 0, 0, 0⟩
            (calculateTrueAnomaly 0 (OrbitalElements.mk 1 0 0 0 0 0 0).e)).2
          ⟨1, 0, 0, 0, 0, 0, 0⟩).2.1 ^ 2 +
        (transformToEcliptic
          (calculateOrbitalPosition ⟨1, 0, 0, 0, 0, 0, 0⟩
            (calculateTrueAnomaly 0 (OrbitalElements.mk 1 0 0 0 0 0 0).e)).1
          (calculateOrbitalPosition ⟨1, 0, 0, 0, 0, 0, 0⟩
            (calculateTrueAnomaly 0 (OrbitalElements.mk 1 0 0 0 0 0 0).e)).2
          ⟨1, 0, 0, 0, 0, 0, 0⟩).2.2 ^ 2)
      = (OrbitalElements.mk 1 0 0 0 0 0 0).a :=
  circularOrbit_radius ⟨1, 0, 0, 0, 0, 0, 0⟩ 0 0 rfl (by norm_num)
    (solveKeplerRel_zero 0 keplerDefaultTolerance
      (by norm_num [keplerDefaultTolerance]) (by norm_num [keplerDefaultTolerance]))

/-! ### The orbit path sampling (C8) -/

lemma createOrbitPath_length (a e : ℝ) (n : ℕ) : (createOrbitPath a e n).length = n + 1 := by
  unfold createOrbitPath
  rw [List.length_map, List.length_range]

lemma createOrbitPath_getD (a e : ℝ) (n idx : ℕ) (h : idx < n + 1) :
    (createOrbitPath a e n).getD idx (0, 0, 0) =
      (a * (1 - e ^ 2) / (1 + e * Real.cos (((idx : ℝ) / (n : ℝ)) * (2 * Real.pi)))
          * Real.cos (((idx : ℝ) / (n : ℝ)) * (2 * Real.pi)), 0,
        a * (1 - e ^ 2) / (1 + e * Real.cos (((idx : ℝ) / (n : ℝ)) * (2 * Real.pi)))
          * Real.sin (((idx : ℝ) / (n : ℝ)) * (2 * Real.pi))) := by
  unfold createOrbitPath
  rw [List.getD_eq_getElem?_getD, List.getElem?_map, List.getElem?_range h]
  rfl

lemma createOrbitPath_closed (a e : ℝ) (n : ℕ) (hn : 1 ≤ n) :
    (createOrbitPath a e n).getD 0 (0, 0, 0) = (createOrbitPath a e n).getD n (0, 0, 0) := by
  rw [createOrbitPath_getD a e n 0 (by omega), createOrbitPath_getD a e n n (by omega)]
  have hn0 : (n : ℝ) ≠ 0 := Nat.cast_ne_zero.mpr (by omega)
  have h0 : ((0 : ℕ) : ℝ) / (n : ℝ) * (2 * Real.pi) = 0 := by norm_num
  have h1 : ((n : ℕ) : ℝ) / (n : ℝ) * (2 * Real.pi) = 2 * Real.pi := by
    rw [div_self hn0, one_mul]
  rw [h0, h1, Real.cos_zero, Real.sin_zero, Real.cos_two_pi, Real.sin_two_pi]

lemma createOrbitPath_unit (idx : ℕ) (h : idx ≤ 4) :
    (createOrbitPath 1 0 4).getD idx (0, 0, 0)
      = (Real.cos ((idx : ℝ) * (Real.pi / 2)), 0, Real.sin ((idx : ℝ) * (Real.pi / 2))) := by
  rw [createOrbitPath_getD 1 0 4 idx (by omega)]
  have harg : ((idx : ℝ) / ((4 : ℕ) : ℝ)) * (2 * Real.pi) = (idx : ℝ) * (Real.pi / 2) := by
    push_cast
    ring
  rw [harg]
  norm_num

/-- C8: createOrbitPath a e numPoints returns numPoints+1 points whose
    first and last coincide (closed loop); in particular with a = 1, e = 0
    and numPoints = 4 it returns 5 points sampling the unit circle
    in-plane at uniformly spaced true anomalies idx*(pi/2), with point 0
    and point 4 coincident. -/
theorem createOrbitPath_spec :
    (∀ a e : ℝ, ∀ n : ℕ, 1 ≤ n →
      (createOrbitPath a e n).length = n + 1 ∧
      (createOrbitPath a e n).getD 0 (0, 0, 0) = (createOrbitPath a e n).getD n (0, 0, 0)) ∧
    (createOrbitPath 1 0 4).length = 5 ∧
    (∀ idx, idx ≤ 4 →
      (createOrbitPath 1 0 4).getD idx (0, 0, 0)
        = (Real.cos ((idx : ℝ) * (Real.pi / 2)), 0, Real.sin ((idx : ℝ) * (Real.pi / 2))) ∧
      ((createOrbitPath 1 0 4).getD idx (0, 0, 0)).2.1 = 0 ∧
      ((createOrbitPath 1 0 4).getD idx (0, 0, 0)).1 ^ 2
        + ((createOrbitPath 1 0 4).getD idx (0, 0, 0)).2.2 ^ 2 = 1) ∧
    (createOrbitPath 1 0 4).getD 0 (0, 0, 0) = (createOrbitPath 1 0 4).getD 4 (0, 0, 0) := by
  refine ⟨fun a e n hn => ⟨createOrbitPath_length a e n, createOrbitPath_closed a e n hn⟩,
    createOrbitPath_length 1 0 4, ?_, createOrbitPath_closed 1 0 4 (by norm_num)⟩
  intro idx hidx
  have hpt := createOrbitPath_unit idx hidx
  refine ⟨hpt, by rw [hpt], ?_⟩
  rw [hpt]
  exact Real.cos_sq_add_sin_sq _

/-- Witness for C8 at concrete inputs: a closed 4-point ellipse sampling
    and the third point of the unit-circle instance. -/
theorem createOrbitPath_spec_witness :
    ((createOrbitPath 2 0 3).length = 3 + 1 ∧
      (createOrbitPath 2 0 3).getD 0 (0, 0, 0) = (createOrbitPath 2 0 3).getD 3 (0, 0, 0)) ∧
    (createOrbitPath 1 0 4).getD 2 (0, 0, 0)
      = (Real.cos ((2 : ℕ) * (Real.pi / 2)), 0, Real.sin ((2 : ℕ) * (Real.pi / 2))) :=
  ⟨createOrbitPath_spec.1 2 0 3 (by norm_num),
    (createOrbitPath_spec.2.2.1 2 (by norm_num)).1⟩

/-! ### The radius cap (C9) -/

lemma atlasRadius_nonneg (s : ℕ) : 0 ≤ atlasRadius s := by
  simp only [atlasRadius]
  split_ifs with h
  · norm_num [atlasMaxRAU]
  · apply div_nonneg
    · norm_num [atlasSemiLatus]
    · nlinarith [Real.neg_one_le_cos (atlasNu s)]

lemma atlasRadius_le (s : ℕ) : atlasRadius s ≤ 300 := by
  simp only [atlasRadius]
  split_ifs with h
  · norm_num [atlasMaxRAU]
  · have h2 := le_of_not_lt h
    calc atlasSemiLatus / (1 + Real.cos (atlasNu s)) ≤ atlasMaxRAU := h2
    _ = 300 := by norm_num [atlasMaxRAU]

lemma abs_mul_le_one {x y : ℝ} (hx : |x| ≤ 1) (hy : |y| ≤ 1) : |x * y| ≤ 1 := by
  rw [abs_mul]
  nlinarith [abs_nonneg x, abs_nonneg y]

lemma abs_mul3_le_one {x y z : ℝ} (hx : |x| ≤ 1) (hy : |y| ≤ 1) (hz : |z| ≤ 1) :
    |x * y * z| ≤ 1 := by
  rw [abs_mul, abs_mul]
  have h1 : |x| * |y| ≤ 1 := by nlinarith [abs_nonneg x, abs_nonneg y]
  calc |x| * |y| * |z| ≤ 1 * |z| := mul_le_mul_of_nonneg_right h1 (abs_nonneg z)
  _ = |z| := one_mul _
  _ ≤ 1 := hz

lemma abs_sub_le_two {x y : ℝ} (hx : |x| ≤ 1) (hy : |y| ≤ 1) : |x - y| ≤ 2 := by
  have h := abs_add x (-y)
  rw [abs_neg] at h
  rw [sub_eq_add_neg]
  linarith

lemma abs_add_le_two {x y : ℝ} (hx : |x| ≤ 1) (hy : |y| ≤ 1) : |x + y| ≤ 2 := by
  have h := abs_add x y
  linarith

lemma abs_combo {c1 c2 u v : ℝ} (h1 : |c1| ≤ 2) (h2 : |c2| ≤ 2)
    (hu : |u| ≤ 300) (hv : |v| ≤ 300) : |c1 * u + c2 * v| ≤ 1200 := by
  have h := abs_add (c1 * u) (c2 * v)
  rw [abs_mul, abs_mul] at h
  nlinarith [abs_nonneg c1, abs_nonneg c2, abs_nonneg u, abs_nonneg v]

lemma abs_combo1 {c1 c2 u v : ℝ} (h1 : |c1| ≤ 1) (h2 : |c2| ≤ 1)
    (hu : |u| ≤ 300) (hv : |v| ≤ 300) : |c1 * u + c2 * v| ≤ 600 := by
  have h := abs_add (c1 * u) (c2 * v)
  rw [abs_mul, abs_mul] at h
  nlinarith [abs_nonneg c1, abs_nonneg c2, abs_nonneg u, abs_nonneg v]

lemma atlasPathPoint_bounded (iDeg omegaDeg OmegaDeg : ℝ) (s : ℕ) :
    |(atlasPathPoint iDeg omegaDeg OmegaDeg s).1| ≤ 108000 ∧
    |(atlasPathPoint iDeg omegaDeg OmegaDeg s).2.1| ≤ 108000 ∧
    |(atlasPathPoint iDeg omegaDeg OmegaDeg s).2.2| ≤ 108000 := by
  have hr0 := atlasRadius_nonneg s
  have hr3 := atlasRadius_le s
  have hxo : |atlasRadius s * Real.cos (atlasNu s)| ≤ 300 := by
    rw [abs_mul, abs_of_nonneg hr0]
    nlinarith [Real.abs_cos_le_one (atlasNu s), abs_nonneg (Real.cos (atlasNu s))]
  have hyo : |atlasRadius s * Real.sin (atlasNu s)| ≤ 300 := by
    rw [abs_mul, abs_of_nonneg hr0]
    nlinarith [Real.abs_sin_le_one (atlasNu s), abs_nonneg (Real.sin (atlasNu s))]
  simp only [atlasPathPoint, atlasToScene, mapToScene]
  set cO := Real.cos (OmegaDeg * Real.pi / 180) with hcO
  set sO := Real.sin (OmegaDeg * Real.pi / 180) with hsO
  set cw := Real.cos (omegaDeg * Real.pi / 180) with hcw
  set sw := Real.sin (omegaDeg * Real.pi / 180) with hsw
  set cI := Real.cos (iDeg * Real.pi / 180) with hcI
  set sI := Real.sin (iDeg * Real.pi / 180) with hsI
  have e1 : |cO| ≤ 1 := Real.abs_cos_le_one _
  have e2 : |sO| ≤ 1 := Real.abs_sin_le_one _
  have e3 : |cw| ≤ 1 := Real.abs_cos_le_one _
  have e4 : |sw| ≤ 1 := Real.abs_sin_le_one _
  have e5 : |cI| ≤ 1 := Real.abs_cos_le_one _
  have e6 : |sI| ≤ 1 := Real.abs_sin_le_one _
  have e1n : |(-cO)| ≤ 1 := by rw [abs_neg]; exact e1
  have e2n : |(-sO)| ≤ 1 := by rw [abs_neg]; exact e2
  have hcA : |cO * cw - sO * sw * cI| ≤ 2 :=
    abs_sub_le_two (abs_mul_le_one e1 e3) (abs_mul3_le_one e2 e4 e5)
  have hcB : |(-cO) * sw - sO * cw * cI| ≤ 2 :=
    abs_sub_le_two (abs_mul_le_one e1n e4) (abs_mul3_le_one e2 e3 e5)
  have hcC : |sO * cw + cO * sw * cI| ≤ 2 :=
    abs_add_le_two (abs_mul_le_one e2 e3) (abs_mul3_le_one e1 e4 e5)
  have hcD : |(-sO) * sw + cO * cw * cI| ≤ 2 :=
    abs_add_le_two (abs_mul_le_one e2n e4) (abs_mul3_le_one e1 e3 e5)
  have hcE : |sI * sw| ≤ 1 := abs_mul_le_one e6 e4
  have hcF : |sI * cw| ≤ 1 := abs_mul_le_one e6 e3
  have hx : |(cO * cw - sO * sw * cI) * (atlasRadius s * Real.cos (atlasNu s)) +
      (-cO * sw - sO * cw * cI) * (atlasRadius s * Real.sin (atlasNu s))| ≤ 1200 :=
    abs_combo hcA hcB hxo hyo
  have hy : |(sO * cw + cO * sw * cI) * (atlasRadius s * Real.cos (atlasNu s)) +
      (-sO * sw + cO * cw * cI) * (atlasRadius s * Real.sin (atlasNu s))| ≤ 1200 :=
    abs_combo hcC hcD hxo hyo
  have hz : |(sI * sw) * (atlasRadius s * Real.cos (atlasNu s)) +
      (sI * cw) * (atlasRadius s * Real.sin (atlasNu s))| ≤ 600 :=
    abs_combo1 hcE hcF hxo hyo
  have h30 : sceneScaleAU = 30 := rfl
  have h6 : sceneVerticalScale = 6 := rfl
  refine ⟨?_, ?_, ?_⟩
  · rw [h30, abs_mul, abs_of_nonneg (by norm_num : (0 : ℝ) ≤ 30)]
    nlinarith [hx, abs_nonneg ((cO * cw - sO * sw * cI) * (atlasRadius s * Real.cos (atlasNu s)) +
      (-cO * sw - sO * cw * cI) * (atlasRadius s * Real.sin (atlasNu s)))]
  · rw [h30, h6, abs_mul, abs_mul,
      abs_of_nonneg (by norm_num : (0 : ℝ) ≤ 30), abs_of_nonneg (by norm_num : (0 : ℝ) ≤ 6)]
    nlinarith [hz, abs_nonneg ((sI * sw) * (atlasRadius s * Real.cos (atlasNu s)) +
      (sI * cw) * (atlasRadius s * Real.sin (atlasNu s)))]
  · rw [h30, abs_neg, abs_mul, abs_of_nonneg (by norm_num : (0 : ℝ) ≤ 30)]
    nlinarith [hy, abs_nonneg ((sO * cw + cO * sw * cI) * (atlasRadius s * Real.cos (atlasNu s)) +
      (-sO * sw + cO * cw * cI) * (atlasRadius s * Real.sin (atlasNu s)))]

/-- C9: every sample of the 2000-step parabolic path is built from a
    capped orbital-plane radius lying in the band 0 to 300 AU, and every
    emitted scene coordinate is bounded (finite) in consequence. -/
theorem atlasParabolicPath_capped (iDeg omegaDeg OmegaDeg : ℝ) :
    (∀ s, s ≤ atlasSteps → 0 ≤ atlasRadius s ∧ atlasRadius s ≤ 300) ∧
    (∀ pt ∈ atlasParabolicPath iDeg omegaDeg OmegaDeg,
      |pt.1| ≤ 108000 ∧ |pt.2.1| ≤ 108000 ∧ |pt.2.2| ≤ 108000) := by
  constructor
  · intro s _
    exact ⟨atlasRadius_nonneg s, atlasRadius_le s⟩
  · intro pt hpt
    unfold atlasParabolicPath at hpt
    rw [List.mem_map] at hpt
    obtain ⟨s, _, rfl⟩ := hpt
    exact atlasPathPoint_bounded iDeg omegaDeg OmegaDeg s

/-- Witness for C9 at a concrete orientation and the first sample. -/
theorem atlasParabolicPath_capped_witness :
    (0 ≤ atlasRadius 0 ∧ atlasRadius 0 ≤ 300) ∧
    (|(atlasPathPoint 5 10 15 0).1| ≤ 108000 ∧
      |(atlasPathPoint 5 10 15 0).2.1| ≤ 108000 ∧
      |(atlasPathPoint 5 10 15 0).2.2| ≤ 108000) :=
  ⟨(atlasParabolicPath_capped 5 10 15).1 0 (by norm_num [atlasSteps]),
    (atlasParabolicPath_capped 5 10 15).2 (atlasPathPoint 5 10 15 0)
      (List.mem_map_of_mem _ (List.mem_range.mpr (by norm_num [atlasSteps])))⟩

end Aims
